import Mathlib

/-!
Verification of the atomic quota-check-and-increment protocol and its
supporting cache / rate-limit layer of the scrape2sheets backend.

The definitions below are shallow embeddings of the corresponding source
functions:

* `increment_usage_if_allowed` embeds the plpgsql RPC of the same name
  (migration file): row lookup with `FOR UPDATE`, past-due downgrade to 5,
  check-then-increment, and the `RETURNING` clause of the success branch.
  The exclusive row lock serializes concurrent calls on the same account,
  so a sequence of calls is modeled as sequential composition
  (`runTryConsume`).
* `getEffectiveLimit` embeds `getEffectiveLimit` of `utils/usage.js`.
* `resetMonthlyUsageIfNeeded` embeds the lazy monthly reset of
  `utils/usage.js`, with JS dates reduced to their (getFullYear, getMonth)
  pair, which is all the source reads.
* `getCachedUser` / `setCachedUser` / `invalidateUserCache` embed
  `user-cache-service` (part of the services directory): the underlying
  store calls are fallible (`Except`), the wrappers catch every error and
  degrade, which the embedding expresses by total non-`Except` wrappers.
* `getClientIp` / `keyGenerator` embed the identity resolution of the
  rate-limit middleware, including JS truthiness of the header values.
* `healthHandler` embeds the `GET /health` handler of the server file.

Usage counters and plan limits are integer SQL columns that the data model
constrains to be non-negative (`0 <= usageThisPeriod`); they are modeled
as `Nat`, so `L - U` below is truncated subtraction.
-/

/-- A calendar instant reduced to the fields the source reads:
`getFullYear` and `getMonth` (0-11) of a JS `Date`. -/
structure JsDate where
  year : Int
  month : Int
deriving Repr, DecidableEq

/-- One row of the `users` table, restricted to the columns the verified
code reads or writes. -/
structure UserRow where
  uid : String
  plan : String
  usage_this_month : Nat
  plan_limits_scrapes : Nat
  subscription_status : String
  billing_date : Option JsDate
  updated_at : Nat
  smart_formatting : Bool
  google_provider_token : Option String
deriving Repr, DecidableEq

/-- The `RETURNS TABLE` row of the `increment_usage_if_allowed` RPC. -/
structure RpcResult where
  allowed : Bool
  new_usage : Nat
  effective_limit : Nat
  plan : String
  subscription_status : String
deriving Repr, DecidableEq

/-- `getEffectiveLimit` of `utils/usage.js`; the plpgsql body inlines the
same computation (`IF v_status = past_due THEN v_limit := 5`). -/
def getEffectiveLimit (u : UserRow) : Nat :=
  if u.subscription_status = "past_due" then 5 else u.plan_limits_scrapes

/-- The `increment_usage_if_allowed(p_user_id uuid)` RPC.  The input row is
the locked `users` row for `p_user_id` (`none` when `NOT FOUND`); `now` is
the value of `now()` used by the `UPDATE`.  Returns the row after the call
together with the returned record.  Note that the success branch re-reads
`v_limit` from the `RETURNING u.plan_limits_scrapes` clause, exactly as the
source does. -/
def increment_usage_if_allowed (row : Option UserRow) (now : Nat) :
    Option UserRow × RpcResult :=
  match row with
  | none =>
      (none,
        { allowed := false, new_usage := 0, effective_limit := 0,
          plan := "FREE", subscription_status := "none" })
  | some u =>
      let v_limit := if u.subscription_status = "past_due" then 5
                     else u.plan_limits_scrapes
      if u.usage_this_month ≥ v_limit then
        (some u,
          { allowed := false, new_usage := u.usage_this_month,
            effective_limit := v_limit, plan := u.plan,
            subscription_status := u.subscription_status })
      else
        let u2 : UserRow :=
          { u with usage_this_month := u.usage_this_month + 1,
                   updated_at := now }
        (some u2,
          { allowed := true, new_usage := u2.usage_this_month,
            effective_limit := u2.plan_limits_scrapes, plan := u2.plan,
            subscription_status := u2.subscription_status })

/-- `K` serialized `tryConsume` calls on the same account: the row lock
forbids interleaving, so the concurrent calls execute one after the other.
Returns the final row and the number of calls that returned
`allowed = true`. -/
def runTryConsume (now : Nat) : Nat → Option UserRow → Option UserRow × Nat
  | 0, row => (row, 0)
  | Nat.succ k, row =>
      let step := increment_usage_if_allowed row now
      let rest := runTryConsume now k step.1
      (rest.1, (if step.2.allowed then 1 else 0) + rest.2)

lemma increment_denied_eq (u : UserRow) (now : Nat)
    (h : getEffectiveLimit u ≤ u.usage_this_month) :
    increment_usage_if_allowed (some u) now =
      (some u,
        { allowed := false, new_usage := u.usage_this_month,
          effective_limit := getEffectiveLimit u, plan := u.plan,
          subscription_status := u.subscription_status }) := by
  simp only [increment_usage_if_allowed, getEffectiveLimit] at h ⊢
  rw [if_pos h]

lemma increment_allowed_eq (u : UserRow) (now : Nat)
    (h : u.usage_this_month < getEffectiveLimit u) :
    increment_usage_if_allowed (some u) now =
      (some { u with usage_this_month := u.usage_this_month + 1,
                     updated_at := now },
        { allowed := true, new_usage := u.usage_this_month + 1,
          effective_limit := u.plan_limits_scrapes, plan := u.plan,
          subscription_status := u.subscription_status }) := by
  simp only [increment_usage_if_allowed, getEffectiveLimit] at h ⊢
  rw [if_neg (by omega)]

lemma getEffectiveLimit_increment (u : UserRow) (now : Nat) :
    getEffectiveLimit
      { u with usage_this_month := u.usage_this_month + 1,
               updated_at := now } = getEffectiveLimit u := rfl

/-- C2: a single `tryConsume` on an existing account either denies with the
usage unchanged and no write, or increments the counter by exactly one and
reports the incremented value. -/
theorem tryConsume_single_step (u : UserRow) (now : Nat) :
    (u.usage_this_month ≥ getEffectiveLimit u →
      increment_usage_if_allowed (some u) now =
        (some u,
          { allowed := false, new_usage := u.usage_this_month,
            effective_limit := getEffectiveLimit u, plan := u.plan,
            subscription_status := u.subscription_status })) ∧
    (u.usage_this_month < getEffectiveLimit u →
      (increment_usage_if_allowed (some u) now).1 =
          some { u with usage_this_month := u.usage_this_month + 1,
                        updated_at := now } ∧
      (increment_usage_if_allowed (some u) now).2.allowed = true ∧
      (increment_usage_if_allowed (some u) now).2.new_usage =
          u.usage_this_month + 1) := by
  constructor
  · intro h
    exact increment_denied_eq u now h
  · intro h
    rw [increment_allowed_eq u now h]
    exact ⟨rfl, rfl, rfl⟩

/-- A concrete account used by several witnesses: FREE plan, limit 5,
usage 5 (at the limit). -/
def freeUserAtLimit : UserRow :=
  { uid := "u1", plan := "FREE", usage_this_month := 5,
    plan_limits_scrapes := 5, subscription_status := "none",
    billing_date := none, updated_at := 0, smart_formatting := true,
    google_provider_token := none }

/-- A concrete account under its limit: FREE plan, limit 5, usage 3. -/
def freeUserUnderLimit : UserRow :=
  { uid := "u1", plan := "FREE", usage_this_month := 3,
    plan_limits_scrapes := 5, subscription_status := "none",
    billing_date := none, updated_at := 0, smart_formatting := true,
    google_provider_token := none }

theorem tryConsume_single_step_witness :
    (increment_usage_if_allowed (some freeUserUnderLimit) 7).2.allowed = true ∧
    (increment_usage_if_allowed (some freeUserUnderLimit) 7).2.new_usage = 4 := by
  have h := (tryConsume_single_step freeUserUnderLimit 7).2 (by decide)
  exact ⟨h.2.1, h.2.2⟩

/-- C5: a `tryConsume` call for an id with no `users` row returns
`allowed = false` with zeroed and defaulted fields and leaves the store
untouched, instead of raising. -/
theorem tryConsume_missing_account (now : Nat) :
    increment_usage_if_allowed none now =
      (none,
        { allowed := false, new_usage := 0, effective_limit := 0,
          plan := "FREE", subscription_status := "none" }) := rfl

lemma runTryConsume_spec (now : Nat) :
    ∀ (K : Nat) (u : UserRow),
      (runTryConsume now K (some u)).2 =
        min K (getEffectiveLimit u - u.usage_this_month) ∧
      ∃ u2, (runTryConsume now K (some u)).1 = some u2 ∧
        u2.usage_this_month =
          u.usage_this_month +
            min K (getEffectiveLimit u - u.usage_this_month) := by
  intro K
  induction K with
  | zero =>
      intro u
      exact ⟨by simp [runTryConsume], u, rfl, by simp⟩
  | succ k ih =>
      intro u
      by_cases h : u.usage_this_month < getEffectiveLimit u
      · have hstep := increment_allowed_eq u now h
        have hu2 := ih { u with usage_this_month := u.usage_this_month + 1,
                                updated_at := now }
        simp only [getEffectiveLimit_increment] at hu2
        obtain ⟨hcount, uf, hrow, husage⟩ := hu2
        refine ⟨?_, uf, ?_, ?_⟩
        · simp [runTryConsume, hstep, hcount]
          omega
        · simp only [runTryConsume, hstep]
          exact hrow
        · rw [husage]
          omega
      · have hstep := increment_denied_eq u now (by omega)
        have hu2 := ih u
        obtain ⟨hcount, uf, hrow, husage⟩ := hu2
        have hz : getEffectiveLimit u - u.usage_this_month = 0 := by omega
        refine ⟨?_, uf, ?_, ?_⟩
        · simp only [runTryConsume, hstep, hcount, hz]
          simp
        · simp only [runTryConsume, hstep]
          exact hrow
        · rw [husage]
          omega

/-- C1: starting from usage `U` and effective limit `L`, a serialized
sequence of `K` `tryConsume` calls on the same account yields exactly
`min K (L - U)` calls with `allowed = true` and leaves the counter at
`U + min K (L - U)` (truncated subtraction on the non-negative counters). -/
theorem tryConsume_sequence_count (u : UserRow) (now K : Nat) :
    (runTryConsume now K (some u)).2 =
      min K (getEffectiveLimit u - u.usage_this_month) ∧
    ∃ u2, (runTryConsume now K (some u)).1 = some u2 ∧
      u2.usage_this_month =
        u.usage_this_month +
          min K (getEffectiveLimit u - u.usage_this_month) :=
  runTryConsume_spec now K u

/-- The test vector of the spec: K = 50 calls against L = 10, U = 7 give
exactly 3 successes and final usage 10. -/
theorem tryConsume_sequence_count_witness :
    (runTryConsume 0 50 (some { freeUserUnderLimit with
        usage_this_month := 7, plan_limits_scrapes := 10 })).2 = 3 ∧
    ∃ u2, (runTryConsume 0 50 (some { freeUserUnderLimit with
        usage_this_month := 7, plan_limits_scrapes := 10 })).1 = some u2 ∧
      u2.usage_this_month = 10 := by
  have h := tryConsume_sequence_count
    { freeUserUnderLimit with usage_this_month := 7, plan_limits_scrapes := 10 }
    0 50
  obtain ⟨hc, u2, hrow, hu⟩ := h
  refine ⟨?_, u2, hrow, ?_⟩
  · rw [hc]; decide
  · rw [hu]; decide

/-- C4: for an account whose subscription is past due, the decision is
taken against the fixed reduced limit 5, whatever `plan_limits_scrapes`
holds, and a denied call reports effective limit 5. -/
theorem tryConsume_pastDue_enforces_five (u : UserRow) (now : Nat)
    (h : u.subscription_status = "past_due") :
    ((increment_usage_if_allowed (some u) now).2.allowed = true ↔
      u.usage_this_month < 5) ∧
    (5 ≤ u.usage_this_month →
      (increment_usage_if_allowed (some u) now).2 =
        { allowed := false, new_usage := u.usage_this_month,
          effective_limit := 5, plan := u.plan,
          subscription_status := u.subscription_status }) := by
  have hL : getEffectiveLimit u = 5 := by
    simp [getEffectiveLimit, h]
  constructor
  · constructor
    · intro ha
      by_contra hge
      rw [increment_denied_eq u now (by omega)] at ha
      simp at ha
    · intro hlt
      rw [increment_allowed_eq u now (by omega)]
  · intro hge
    have := increment_denied_eq u now (by omega)
    rw [this, hL]

/-- The concrete account of the spec test: plan PRO, nominal limit 999999,
past due, usage 5: the call is denied. -/
def proPastDueAtFive : UserRow :=
  { uid := "u1", plan := "PRO", usage_this_month := 5,
    plan_limits_scrapes := 999999, subscription_status := "past_due",
    billing_date := none, updated_at := 0, smart_formatting := true,
    google_provider_token := none }

theorem tryConsume_pastDue_enforces_five_witness :
    (increment_usage_if_allowed (some proPastDueAtFive) 0).2.allowed = false := by
  have h := (tryConsume_pastDue_enforces_five proPastDueAtFive 0 rfl).1
  have : ¬ ((increment_usage_if_allowed (some proPastDueAtFive) 0).2.allowed = true) := by
    intro ha
    have := h.mp ha
    simp [proPastDueAtFive] at this
  exact Bool.eq_false_iff.mpr this

/-- A past-due account still under the reduced limit: plan PRO, nominal
limit 999999, usage 3. -/
def proPastDueUnder : UserRow :=
  { uid := "u1", plan := "PRO", usage_this_month := 3,
    plan_limits_scrapes := 999999, subscription_status := "past_due",
    billing_date := none, updated_at := 0, smart_formatting := true,
    google_provider_token := none }

/-- C3 failing input: on the `allowed = true` branch the RPC re-reads
`v_limit` from `RETURNING u.plan_limits_scrapes`, so a past-due account
that is allowed gets the raw plan limit back in the column named
`effective_limit`, not the enforced reduced limit 5 that
`getEffectiveLimit` computes and that the denial branch reports. -/
theorem tryConsume_allowed_returns_raw_limit :
    (increment_usage_if_allowed (some proPastDueUnder) 0).2.allowed = true ∧
    (increment_usage_if_allowed (some proPastDueUnder) 0).2.effective_limit
      = 999999 ∧
    getEffectiveLimit proPastDueUnder = 5 := by
  refine ⟨?_, ?_, ?_⟩ <;> decide

/-- C10: a successful call replaces the row by the same row with only
`usage_this_month` bumped and `updated_at` set to the call time; a denied
or not-found call leaves the store exactly as it was. -/
theorem tryConsume_frame (row : Option UserRow) (now : Nat) :
    ((increment_usage_if_allowed row now).2.allowed = true →
      ∃ u, row = some u ∧
        (increment_usage_if_allowed row now).1 =
          some { u with usage_this_month := u.usage_this_month + 1,
                        updated_at := now }) ∧
    ((increment_usage_if_allowed row now).2.allowed = false →
      (increment_usage_if_allowed row now).1 = row) := by
  match row with
  | none => exact ⟨by intro h; simp [increment_usage_if_allowed] at h,
      fun _ => rfl⟩
  | some u =>
      by_cases h : u.usage_this_month < getEffectiveLimit u
      · rw [increment_allowed_eq u now h]
        exact ⟨fun _ => ⟨u, rfl, rfl⟩, by intro hf; simp at hf⟩
      · rw [increment_denied_eq u now (by omega)]
        exact ⟨by intro ha; simp at ha, fun _ => rfl⟩

theorem tryConsume_frame_witness :
    (increment_usage_if_allowed (some freeUserUnderLimit) 9).1 =
      some { freeUserUnderLimit with usage_this_month := 4, updated_at := 9 } := by
  obtain ⟨u, hu, hrow⟩ := (tryConsume_frame (some freeUserUnderLimit) 9).1 (by decide)
  have hu2 : u = freeUserUnderLimit := by
    injection hu with h2
    exact h2.symm
  subst hu2
  exact hrow

/-- Observable store effects of a request-handling path, restricted to the
operations the cache-invalidation policy speaks about. -/
inductive Eff where
  | dbUpdateUsers (uid : String)
  | dbDeleteUsers (uid : String)
  | dbDeleteActivities (uid : String)
  | dbRpcIncrement (uid : String)
  | authDeleteUser (uid : String)
  | cacheInvalidate (uid : String)
deriving Repr, DecidableEq

/-- `resetMonthlyUsageIfNeeded` of `utils/usage.js`: when the billing date
lies at least one calendar month in the past, write `usage_this_month = 0`
and a fresh billing date to the `users` row (the emitted
`Eff.dbUpdateUsers`), mutating the in-memory user likewise; otherwise do
nothing.  The function itself performs no cache invalidation. -/
def resetMonthlyUsageIfNeeded (u : UserRow) (now : JsDate) (nowTs : Nat) :
    UserRow × List Eff :=
  match u.billing_date with
  | none => (u, [])
  | some bd =>
      if (now.year - bd.year) * 12 + (now.month - bd.month) ≥ 1 then
        ({ u with usage_this_month := 0, billing_date := some now,
                  updated_at := nowTs },
          [Eff.dbUpdateUsers u.uid])
      else (u, [])

/-- `users`-row effects of `POST /api/scrape` (routes/scrape.js): the
handler calls `resetMonthlyUsageIfNeeded` and then only reads the row; no
other write and no cache invalidation occurs on this path. -/
def scrapeHandlerUserEffects (u : UserRow) (now : JsDate) (nowTs : Nat) :
    List Eff :=
  (resetMonthlyUsageIfNeeded u now nowTs).2

/-- Effects of the `PATCH /settings` handler (user routes): update the
`users` row, then invalidate the cache entry. -/
def settingsPatchEffects (uid : String) : List Eff :=
  [Eff.dbUpdateUsers uid, Eff.cacheInvalidate uid]

/-- Effects of the `DELETE /delete-account` handler. -/
def deleteAccountEffects (uid : String) : List Eff :=
  [Eff.dbDeleteActivities uid, Eff.dbDeleteUsers uid, Eff.authDeleteUser uid,
    Eff.cacheInvalidate uid]

/-- Effects of `refreshGoogleToken` (routes/sheets.js): store the new
token, then invalidate. -/
def refreshGoogleTokenEffects (uid : String) : List Eff :=
  [Eff.dbUpdateUsers uid, Eff.cacheInvalidate uid]

/-- `users`-row effects of the allowed branch of `POST /export`
(routes/sheets.js): the atomic RPC increments, then the cache entry is
invalidated. -/
def exportAllowedEffects (uid : String) : List Eff :=
  [Eff.dbRpcIncrement uid, Eff.cacheInvalidate uid]

/-- Effects of each mutating branch of the billing webhook
(routes/billing.js): update the `users` row, then invalidate. -/
def billingPlanChangeEffects (uid : String) : List Eff :=
  [Eff.dbUpdateUsers uid, Eff.cacheInvalidate uid]

/-- An account whose billing date (September 2025, month index 8) lies one
calendar month before `octDate`, so the lazy reset fires. -/
def resetDueUser : UserRow :=
  { freeUserUnderLimit with billing_date := some { year := 2025, month := 8 } }

def octDate : JsDate := { year := 2025, month := 9 }

/-- C6: the settings, account-deletion, token-refresh, export and billing
paths each invalidate the cache entry directly after their durable write,
but the monthly usage reset run by the scrape route writes the `users` row
and returns without any invalidation: the policy fails on that path. -/
theorem usageReset_writes_without_invalidation :
    (Eff.cacheInvalidate ("u1") ∈ settingsPatchEffects ("u1")) ∧
    (Eff.cacheInvalidate ("u1") ∈ deleteAccountEffects ("u1")) ∧
    (Eff.cacheInvalidate ("u1") ∈ refreshGoogleTokenEffects ("u1")) ∧
    (Eff.cacheInvalidate ("u1") ∈ exportAllowedEffects ("u1")) ∧
    (Eff.cacheInvalidate ("u1") ∈ billingPlanChangeEffects ("u1")) ∧
    scrapeHandlerUserEffects resetDueUser octDate 100 =
      [Eff.dbUpdateUsers ("u1")] ∧
    ¬ (Eff.cacheInvalidate ("u1") ∈
        scrapeHandlerUserEffects resetDueUser octDate 100) := by
  decide

/-- Connection state and content of the shared key-value store, together
with a fault flag making every store call fail (the thrown error of the
client). -/
structure RedisState where
  clientPresent : Bool
  isOpen : Bool
  failing : Bool
  store : List (String × String)
deriving Repr, DecidableEq

/-- `isRedisConnected` of redis-service.js: a client was created and its
socket is open. -/
def isRedisConnected (st : RedisState) : Bool :=
  st.clientPresent && st.isOpen

/-- The underlying `redisClient.get`: fallible. -/
def redisGet (st : RedisState) (k : String) : Except String (Option String) :=
  if st.failing then Except.error ("connection lost")
  else Except.ok (st.store.lookup k)

/-- The underlying `redisClient.set` with expiry: fallible; on success the
entry is overwritten. -/
def redisSetEx (st : RedisState) (k v : String) :
    Except String (List (String × String)) :=
  if st.failing then Except.error ("connection lost")
  else Except.ok ((k, v) :: st.store.filter (fun p => p.1 != k))

/-- The underlying `redisClient.del`: fallible; on success the entry is
removed (a no-op if absent). -/
def redisDel (st : RedisState) (k : String) :
    Except String (List (String × String)) :=
  if st.failing then Except.error ("connection lost")
  else Except.ok (st.store.filter (fun p => p.1 != k))

def userCacheKeyOf (uid : String) : String := "user:profile:" ++ uid

/-- `getCachedUser` of user-cache-service: absent when disconnected, on a
store error (caught), on a miss, or on a falsy (empty) stored value. -/
def getCachedUser (st : RedisState) (uid : String) : Option String :=
  if !(isRedisConnected st) then none
  else
    match redisGet st (userCacheKeyOf uid) with
    | Except.error _ => none
    | Except.ok none => none
    | Except.ok (some d) => if d = "" then none else some d

/-- `setCachedUser`: a no-op when disconnected or when the store call
fails (caught). -/
def setCachedUser (st : RedisState) (uid v : String) : RedisState :=
  if !(isRedisConnected st) then st
  else
    match redisSetEx st (userCacheKeyOf uid) v with
    | Except.error _ => st
    | Except.ok s => { st with store := s }

/-- `invalidateUserCache`: a no-op when disconnected or when the store
call fails (caught). -/
def invalidateUserCache (st : RedisState) (uid : String) : RedisState :=
  if !(isRedisConnected st) then st
  else
    match redisDel st (userCacheKeyOf uid) with
    | Except.error _ => st
    | Except.ok s => { st with store := s }

/-- C7: while the store is not connected, `get` reports absent and
`put`/`invalidate` are no-ops; and when the underlying store call fails,
every wrapper still returns normally with the same degraded result, so no
cache operation ever propagates an error (the wrappers are total functions
over the fallible `Except`-valued client calls). -/
theorem cache_unavailable_degrades (st : RedisState) (uid v : String) :
    (isRedisConnected st = false →
      getCachedUser st uid = none ∧ setCachedUser st uid v = st ∧
        invalidateUserCache st uid = st) ∧
    (st.failing = true →
      getCachedUser st uid = none ∧ setCachedUser st uid v = st ∧
        invalidateUserCache st uid = st) := by
  constructor
  · intro h
    simp [getCachedUser, setCachedUser, invalidateUserCache, h]
  · intro hf
    cases hb : isRedisConnected st <;>
      simp [getCachedUser, setCachedUser, invalidateUserCache,
        redisGet, redisSetEx, redisDel, hb, hf]

/-- A disconnected store that still physically holds an entry for u1. -/
def stDisconnected : RedisState :=
  { clientPresent := true, isOpen := false, failing := false,
    store := [(userCacheKeyOf ("u1"), "cached-profile")] }

theorem cache_unavailable_degrades_witness :
    getCachedUser stDisconnected ("u1") = none ∧
    setCachedUser stDisconnected ("u1") ("v") = stDisconnected ∧
    invalidateUserCache stDisconnected ("u1") = stDisconnected :=
  (cache_unavailable_degrades stDisconnected ("u1") ("v")).1 (by rfl)

/-- The request fields the rate-limit identity resolution reads. -/
structure HttpReq where
  authUserId : Option String
  xForwardedFor : Option String
  reqIp : Option String
  remoteAddress : Option String
deriving Repr, DecidableEq

/-- JS truthiness of a possibly-absent string: absent and empty are falsy. -/
def jsTruthy : Option String → Bool
  | none => false
  | some s => s != ""

def emptyStr : String := ""

/-- `getClientIp` of the rate-limit middleware: first entry of the
`x-forwarded-for` chain when the header is truthy, else `req.ip`, else the
socket address, else the literal unknown. -/
def getClientIp (r : HttpReq) : String :=
  if jsTruthy r.xForwardedFor then
    (((r.xForwardedFor.getD emptyStr).splitOn (",")).headD emptyStr).trim
  else if jsTruthy r.reqIp then r.reqIp.getD emptyStr
  else if jsTruthy r.remoteAddress then r.remoteAddress.getD emptyStr
  else "unknown"

/-- `keyGenerator` of the rate-limit middleware: the authenticated user id
when present, else the network identity. -/
def keyGenerator (r : HttpReq) : String :=
  if jsTruthy r.authUserId then ("user:") ++ r.authUserId.getD emptyStr
  else ("ip:") ++ getClientIp r

/-- C8: the limiter key prefers the authenticated principal id; otherwise
it is the network identity: the first entry of the `x-forwarded-for` chain
when that header is present, else the direct peer address `req.ip`. -/
theorem keyGenerator_identity_resolution (r : HttpReq) :
    (jsTruthy r.authUserId = true →
      keyGenerator r = ("user:") ++ r.authUserId.getD emptyStr) ∧
    (jsTruthy r.authUserId = false → jsTruthy r.xForwardedFor = true →
      keyGenerator r =
        ("ip:") ++
          (((r.xForwardedFor.getD emptyStr).splitOn (",")).headD
            emptyStr).trim) ∧
    (jsTruthy r.authUserId = false → jsTruthy r.xForwardedFor = false →
      jsTruthy r.reqIp = true →
      keyGenerator r = ("ip:") ++ r.reqIp.getD emptyStr) := by
  refine ⟨?_, ?_, ?_⟩
  · intro h
    simp [keyGenerator, h]
  · intro h1 h2
    simp [keyGenerator, getClientIp, h1, h2]
  · intro h1 h2 h3
    simp [keyGenerator, getClientIp, h1, h2, h3]

/-- An unauthenticated request with no forwarded-address chain. -/
def reqDirect : HttpReq :=
  { authUserId := none, xForwardedFor := none,
    reqIp := some ("9.9.9.9"), remoteAddress := none }

theorem keyGenerator_identity_resolution_witness :
    keyGenerator reqDirect = ("ip:9.9.9.9") := by
  have h := (keyGenerator_identity_resolution reqDirect).2.2
    (by decide) (by decide) (by decide)
  rw [h]
  decide

/-- The JSON body and HTTP code produced by `GET /health`. -/
structure HealthReport where
  status : String
  httpCode : Nat
  redisService : Option String
  supabaseService : Option String
deriving Repr, DecidableEq

/-- The `GET /health` handler of the server file: 503 while shutting down;
otherwise independent per-store booleans rendered as ok/error, overall
status ok exactly when both stores are up, else degraded (HTTP 207). -/
def healthHandler (shuttingDown redisHealthy supabaseHealthy : Bool) :
    HealthReport :=
  if shuttingDown then
    { status := "shutting_down", httpCode := 503,
      redisService := none, supabaseService := none }
  else
    let isHealthy := redisHealthy && supabaseHealthy
    { status := if isHealthy then "ok" else "degraded",
      httpCode := if isHealthy then 200 else 207,
      redisService := some (if redisHealthy then "ok" else "error"),
      supabaseService := some (if supabaseHealthy then "ok" else "error") }

/-- C9: the probe reports the shared store and the durable store as two
independent booleans; the overall status is degraded whenever either store
is down; and a status of unhealthy is only ever reported when the durable
store is down (the handler in fact never reports it: its only non-shutdown
statuses are ok and degraded). -/
theorem health_probe_status (r s : Bool) :
    (healthHandler false r s).redisService =
      some (if r then "ok" else "error") ∧
    (healthHandler false r s).supabaseService =
      some (if s then "ok" else "error") ∧
    ((r = false ∨ s = false) →
      (healthHandler false r s).status = "degraded") ∧
    ((healthHandler false r s).status = "unhealthy" → s = false) := by
  cases r <;> cases s <;> decide

theorem health_probe_status_witness :
    (healthHandler false false true).status = "degraded" :=
  (health_probe_status false true).2.2.1 (Or.inl rfl)
